import Mathlib

/-!
Verification development for the ARKANUM SENTINEL single-file application
(`Main.py`).  The Python source is shallowly embedded: pure functions become
Lean functions, dictionary records become structures, Python exceptions become
`Option`/`none`, Python floats parsed from XML attribute strings become exact
rationals (`ℚ`), and the JSON-file collections become an explicit `AppState`
threaded through the request handlers.  Nondeterministic inputs of the real
program (uuid4 tokens, timestamps, the logged-in user, uploaded file names)
are passed as explicit parameters.
-/

namespace Arkanum

/-! ### String utilities

`Main.py` matches keywords with Python's `"KW" in concept.upper()`.  We embed
strings as `List Char`; `Char.toUpper` models `str.upper` (faithful on the
ASCII keywords involved), `leadEq` models "the needle matches at the head",
and `subStr` models the Python substring test `needle in hay`. -/

/-- `leadEq needle hay`: `needle` is an initial segment of `hay`. -/
def leadEq : List Char → List Char → Bool
  | [], _ => true
  | _ :: _, [] => false
  | a :: as, b :: bs => a == b && leadEq as bs

/-- `subStr needle hay = true` iff `needle` occurs contiguously in `hay`
(Python `needle in hay`). -/
def subStr (needle : List Char) : List Char → Bool
  | [] => needle.isEmpty
  | c :: cs => leadEq needle (c :: cs) || subStr needle cs

/-- Model of Python `s.upper()` as used by `classify_concept`. -/
def upperStr (s : String) : List Char := s.data.map Char.toUpper

/-! ### SAT / EFOS connector (`check_rfc_efos`) -/

/-- The demo blacklist `demo_efos` of `check_rfc_efos`. -/
def demo_efos : List String := ["AAA010101AAA", "EFX990909EFX"]

/-- The dictionary returned by `check_rfc_efos`.  The `rfc` argument can be
Python `None` (a CFDI whose `Emisor` element lacks an `Rfc` attribute), hence
`Option String`. -/
structure EfosCheck where
  rfc : Option String
  is_efos : Bool
  source : String
  checked_at : String
deriving DecidableEq, Repr

/-- `check_rfc_efos`: membership test against the static demo set.  In Python
`None in demo_efos` is `False`.  `now` stands for `datetime.now().isoformat()`. -/
def check_rfc_efos (rfc : Option String) (now : String) : EfosCheck :=
  { rfc := rfc
    is_efos := match rfc with
      | some r => demo_efos.contains r
      | none => false
    source := "SAT/DOF (demo)"
    checked_at := now }

/-! ### Taxonomy table (`TAXONOMY`) -/

/-- One entry of the `TAXONOMY` dictionary. -/
structure TaxonomyEntry where
  materialidad : List String
  isr_deductible : Bool
  iva_creditable : Bool
deriving DecidableEq, Repr

/-- The `TAXONOMY` dictionary.  Python raises `KeyError` on an unknown key,
modelled by `none`. -/
def TAXONOMY (k : String) : Option TaxonomyEntry :=
  if k = "SERVICIOS PROFESIONALES" then
    some { materialidad := ["Contrato", "SLA", "Orden de Servicio", "Entregables",
                            "Evidencia de prestación"]
           isr_deductible := true, iva_creditable := true }
  else if k = "ARRENDAMIENTO" then
    some { materialidad := ["Contrato de arrendamiento", "Comprobante de pago",
                            "Uso del bien"]
           isr_deductible := true, iva_creditable := true }
  else if k = "PUBLICIDAD" then
    some { materialidad := ["Contrato", "Brief", "Pautas", "Reportes", "Evidencia"]
           isr_deductible := true, iva_creditable := true }
  else if k = "GENÉRICO" then
    some { materialidad := ["Contrato", "Orden de compra", "Evidencia"]
           isr_deductible := false, iva_creditable := false }
  else none

/-! ### Concept classifier (`classify_concept`) -/

/-- `classify_concept`: uppercases the text, then tests the keyword sets in
source order — `"SERV"`, then `"ARREND"`, then `"PUBLI" or "MARKET"` — and
falls through to `"GENÉRICO"`. -/
def classify_concept (concept : String) : String :=
  let c := upperStr concept
  if subStr "SERV".data c then "SERVICIOS PROFESIONALES"
  else if subStr "ARREND".data c then "ARRENDAMIENTO"
  else if subStr "PUBLI".data c || subStr "MARKET".data c then "PUBLICIDAD"
  else "GENÉRICO"

/-! ### Parsed CFDI data and risk engine -/

/-- The dictionary built by `parse_cfdi_xml`.  `emisor_rfc`/`receptor_rfc` use
`attrib.get("Rfc")`, which yields `None` when the attribute is absent, hence
`Option String`; `concept` uses `attrib.get("Descripcion", "")`. -/
structure ParsedCfdi where
  uuid : String
  emisor_rfc : Option String
  receptor_rfc : Option String
  concept : String
  subtotal : ℚ
  iva : ℚ
  total : ℚ
  fecha : Option String
deriving DecidableEq, Repr

/-- The CFDI dictionary after `upload_cfdi` adds `data["concept_type"]`. -/
structure Cfdi extends ParsedCfdi where
  concept_type : String
deriving DecidableEq, Repr

/-- One evidence record appended by `upload_evidence`. -/
structure Evidence where
  id : String
  cfdi_uuid : String
  filename : String
  hash : String
  uploaded_at : String
deriving DecidableEq, Repr

/-- The dictionary returned by `risk_engine`. -/
structure Risk where
  score : ℕ
  level : String
  reasons : List String
deriving DecidableEq, Repr

/-- `risk_engine`: additive scoring in source order (+60 EFOS, +25 no
evidence, +15 generic concept), then thresholding `risk >= 60 → "ALTO"`,
`risk >= 30 → "MEDIO"`, default `"BAJO"`. -/
def risk_engine (cfdi : Cfdi) (efos_check : EfosCheck) (evidences : List Evidence) :
    Risk :=
  let risk : ℕ := 0
  let reasons : List String := []
  let risk := if efos_check.is_efos then risk + 60 else risk
  let reasons := if efos_check.is_efos then reasons ++ ["Proveedor en lista EFOS"]
                 else reasons
  let risk := if evidences.isEmpty then risk + 25 else risk
  let reasons := if evidences.isEmpty then reasons ++ ["Sin evidencias cargadas"]
                 else reasons
  let risk := if cfdi.concept_type = "GENÉRICO" then risk + 15 else risk
  let reasons := if cfdi.concept_type = "GENÉRICO" then reasons ++ ["Concepto genérico"]
                 else reasons
  let level := if risk ≥ 60 then "ALTO" else if risk ≥ 30 then "MEDIO" else "BAJO"
  { score := risk, level := level, reasons := reasons }

/-! ### Basic risk-engine lemmas -/

/-- The score is the sum of the triggered weights. -/
lemma risk_engine_score (cfdi : Cfdi) (efos_check : EfosCheck)
    (evidences : List Evidence) :
    (risk_engine cfdi efos_check evidences).score =
      (if efos_check.is_efos then 60 else 0) +
      (if evidences.isEmpty then 25 else 0) +
      (if cfdi.concept_type = "GENÉRICO" then 15 else 0) := by
  unfold risk_engine
  split_ifs <;> rfl

/-- The level is determined from the score by the two thresholds. -/
lemma risk_engine_level (cfdi : Cfdi) (efos_check : EfosCheck)
    (evidences : List Evidence) :
    (risk_engine cfdi efos_check evidences).level =
      (if (risk_engine cfdi efos_check evidences).score ≥ 60 then "ALTO"
       else if (risk_engine cfdi efos_check evidences).score ≥ 30 then "MEDIO"
       else "BAJO") := by
  unfold risk_engine
  split_ifs <;> simp_all

/-- The level is one of the three tier strings. -/
lemma risk_engine_level_mem (cfdi : Cfdi) (efos_check : EfosCheck)
    (evidences : List Evidence) :
    (risk_engine cfdi efos_check evidences).level = "ALTO" ∨
    (risk_engine cfdi efos_check evidences).level = "MEDIO" ∨
    (risk_engine cfdi efos_check evidences).level = "BAJO" := by
  unfold risk_engine
  split_ifs <;> simp

/-- With an empty evidence list the score is at least 25 and the no-evidence
reason is reported. -/
lemma risk_engine_no_evidence (cfdi : Cfdi) (efos_check : EfosCheck) :
    25 ≤ (risk_engine cfdi efos_check []).score ∧
    "Sin evidencias cargadas" ∈ (risk_engine cfdi efos_check []).reasons := by
  unfold risk_engine
  split_ifs <;> simp_all

/-- **C1.** The risk score is exactly the sum of the triggered weights from
{60, 25, 15} (+60 issuer listed, +25 empty evidence, +15 generic category),
hence always lies in {0, 15, 25, 40, 60, 75, 85, 100}, and the level is
`"ALTO"` iff score ≥ 60, `"MEDIO"` iff 30 ≤ score < 60, `"BAJO"` iff
score < 30, with exact-threshold ties (≥) going to the higher tier. -/
theorem risk_engine_spec (cfdi : Cfdi) (efos_check : EfosCheck)
    (evidences : List Evidence) :
    (risk_engine cfdi efos_check evidences).score =
      (if efos_check.is_efos then 60 else 0) +
      (if evidences.isEmpty then 25 else 0) +
      (if cfdi.concept_type = "GENÉRICO" then 15 else 0) ∧
    (risk_engine cfdi efos_check evidences).score ∈
      ([0, 15, 25, 40, 60, 75, 85, 100] : List ℕ) ∧
    (risk_engine cfdi efos_check evidences).level =
      (if (risk_engine cfdi efos_check evidences).score ≥ 60 then "ALTO"
       else if (risk_engine cfdi efos_check evidences).score ≥ 30 then "MEDIO"
       else "BAJO") := by
  refine ⟨risk_engine_score _ _ _, ?_, risk_engine_level _ _ _⟩
  rw [risk_engine_score]
  split_ifs <;> simp

/-- **C8.** Monotonicity: if every trigger condition true for the first input
tuple is also true for the second, the first score is ≤ the second score. -/
theorem risk_engine_monotone (c₁ c₂ : Cfdi) (e₁ e₂ : EfosCheck)
    (v₁ v₂ : List Evidence)
    (hefos : e₁.is_efos = true → e₂.is_efos = true)
    (hev : v₁.isEmpty = true → v₂.isEmpty = true)
    (hgen : c₁.concept_type = "GENÉRICO" → c₂.concept_type = "GENÉRICO") :
    (risk_engine c₁ e₁ v₁).score ≤ (risk_engine c₂ e₂ v₂).score := by
  rw [risk_engine_score, risk_engine_score]
  split_ifs <;> simp_all

/-- Witness for `risk_engine_monotone` at concrete inputs. -/
theorem risk_engine_monotone_witness :
    (risk_engine { uuid := "a", emisor_rfc := none, receptor_rfc := none,
                   concept := "x", subtotal := 0, iva := 0, total := 0,
                   fecha := none, concept_type := "GENÉRICO" }
       { rfc := none, is_efos := false, source := "SAT/DOF (demo)",
         checked_at := "t" }
       [{ id := "e", cfdi_uuid := "a", filename := "f", hash := "h",
          uploaded_at := "t" }]).score ≤
    (risk_engine { uuid := "b", emisor_rfc := some "AAA010101AAA",
                   receptor_rfc := none, concept := "x", subtotal := 0,
                   iva := 0, total := 0, fecha := none,
                   concept_type := "GENÉRICO" }
       { rfc := some "AAA010101AAA", is_efos := true,
         source := "SAT/DOF (demo)", checked_at := "t" }
       []).score :=
  risk_engine_monotone _ _ _ _ _ _ (by decide) (by decide) (by decide)

/-- **C9.** The level is `"ALTO"` iff the registry (EFOS) flag is set: the
other two rules contribute at most 40 < 60, while the registry rule alone
contributes 60. -/
theorem risk_engine_alto_iff_efos (cfdi : Cfdi) (efos_check : EfosCheck)
    (evidences : List Evidence) :
    (risk_engine cfdi efos_check evidences).level = "ALTO" ↔
      efos_check.is_efos = true := by
  unfold risk_engine
  split_ifs <;> simp_all

/-! ### Classifier theorems -/

/-- **C2.** The classifier is a total deterministic function into the fixed
four-category set; classification depends only on the uppercased text
(case-insensitive); the services keyword has priority over all later rules;
no keyword matching falls through to `"GENÉRICO"`; and the spec's overlap
example — text containing both "SERVICIO" and "PUBLICIDAD" — resolves to
the services category. -/
theorem classify_concept_spec :
    (∀ s, classify_concept s = "SERVICIOS PROFESIONALES" ∨
          classify_concept s = "ARRENDAMIENTO" ∨
          classify_concept s = "PUBLICIDAD" ∨
          classify_concept s = "GENÉRICO") ∧
    (∀ s t, upperStr s = upperStr t → classify_concept s = classify_concept t) ∧
    (∀ s, subStr "SERV".data (upperStr s) = true →
          classify_concept s = "SERVICIOS PROFESIONALES") ∧
    (∀ s, subStr "SERV".data (upperStr s) = false →
          subStr "ARREND".data (upperStr s) = false →
          subStr "PUBLI".data (upperStr s) = false →
          subStr "MARKET".data (upperStr s) = false →
          classify_concept s = "GENÉRICO") ∧
    classify_concept "Servicios de publicidad" = "SERVICIOS PROFESIONALES" := by
  refine ⟨?_, ?_, ?_, ?_, by decide⟩
  · intro s
    simp only [classify_concept]
    split_ifs <;> simp
  · intro s t h
    simp only [classify_concept, h]
  · intro s h
    simp only [classify_concept, h]
    simp
  · intro s h₁ h₂ h₃ h₄
    simp only [classify_concept, h₁, h₂, h₃, h₄]
    simp

/-- Witness for `classify_concept_spec` at concrete inputs. -/
theorem classify_concept_spec_witness :
    (classify_concept "Renta de oficina" = "SERVICIOS PROFESIONALES" ∨
     classify_concept "Renta de oficina" = "ARRENDAMIENTO" ∨
     classify_concept "Renta de oficina" = "PUBLICIDAD" ∨
     classify_concept "Renta de oficina" = "GENÉRICO") ∧
    classify_concept "SeRvIcIo" = classify_concept "sErViCiO" ∧
    classify_concept "SERVICIO y PUBLICIDAD" = "SERVICIOS PROFESIONALES" ∧
    classify_concept "Papelería" = "GENÉRICO" :=
  ⟨classify_concept_spec.1 "Renta de oficina",
   classify_concept_spec.2.1 "SeRvIcIo" "sErViCiO" (by decide),
   classify_concept_spec.2.2.1 "SERVICIO y PUBLICIDAD" (by decide),
   classify_concept_spec.2.2.2.1 "Papelería" (by decide) (by decide) (by decide)
     (by decide)⟩

/-! ### CFDI XML parser (`parse_cfdi_xml`)

The XML tree is embedded structurally: `find` returning an element or `None`
becomes `Option`, an attribute string that `float()` accepts becomes
`AttrVal.num q` carrying its exact value, and one it rejects becomes
`AttrVal.nonNum`.  Python's `round(x, 2)` (round-half-to-even) is modelled on
exact rationals. -/

/-- The value of an XML attribute as seen by `float()`: `num q` for a string
parsing to the number `q`, `nonNum` for a string `float()` raises on. -/
inductive AttrVal where
  | num (q : ℚ)
  | nonNum (s : String)
deriving DecidableEq, Repr

/-- `float(root.attrib.get(k, 0))`: default 0 when the attribute is absent,
its numeric value when parseable, `ValueError` (`none`) otherwise. -/
def floatOfAttr : Option AttrVal → Option ℚ
  | none => some 0
  | some (.num q) => some q
  | some (.nonNum _) => none

/-- Round to the nearest integer, ties to even (Python `round` on exact
values). -/
def roundHalfEven (q : ℚ) : ℤ :=
  let f := ⌊q⌋
  if q - f < 1 / 2 then f
  else if (1 : ℚ) / 2 < q - f then f + 1
  else if f % 2 = 0 then f else f + 1

/-- `round(x, 2)`. -/
def round2 (q : ℚ) : ℚ := (roundHalfEven (q * 100) : ℚ) / 100

/-- An `Emisor` or `Receptor` element: its `Rfc` attribute may be absent. -/
structure PartyElem where
  rfc : Option String
deriving DecidableEq, Repr

/-- A `Concepto` element: its `Descripcion` attribute may be absent. -/
structure ConceptoElem where
  descripcion : Option String
deriving DecidableEq, Repr

/-- The `Conceptos` container; `find("cfdi:Concepto")` yields the first child
or `None`. -/
structure ConceptosElem where
  firstConcepto : Option ConceptoElem
deriving DecidableEq, Repr

/-- A parsed XML document as `parse_cfdi_xml` inspects it: the root's
`SubTotal`, `Total` and `Fecha` attributes and the `Emisor`, `Receptor` and
`Conceptos` sub-elements. -/
structure CfdiDoc where
  emisor : Option PartyElem
  receptor : Option PartyElem
  conceptos : Option ConceptosElem
  subTotal : Option AttrVal
  total : Option AttrVal
  fecha : Option String
deriving DecidableEq, Repr

/-- `parse_cfdi_xml`.  A missing `Emisor`/`Receptor`/`Conceptos`/first
`Concepto` makes the Python code dereference `None` (`AttributeError`), and a
non-numeric `SubTotal`/`Total` raises `ValueError`; both abort the request
and are modelled as `none`.  `freshUuid` stands for `str(uuid.uuid4())`.
`iva = round(total - subtotal, 2)`. -/
def parse_cfdi_xml (doc : CfdiDoc) (freshUuid : String) : Option ParsedCfdi := do
  let emisor ← doc.emisor
  let receptor ← doc.receptor
  let conceptos ← doc.conceptos
  let concepto ← conceptos.firstConcepto
  let subtotal ← floatOfAttr doc.subTotal
  let total ← floatOfAttr doc.total
  pure { uuid := freshUuid
         emisor_rfc := emisor.rfc
         receptor_rfc := receptor.rfc
         concept := concepto.descripcion.getD ""
         subtotal := subtotal
         iva := round2 (total - subtotal)
         total := total
         fecha := doc.fecha }

/-- **C3.** For every successfully parsed document the stored tax amount is
exactly `round(total − subtotal, 2)` of the stored values, and the stored
subtotal/total are the root attributes' numeric values unchanged (when those
attributes are present). -/
theorem parse_cfdi_tax_amount (doc : CfdiDoc) (u : String) (data : ParsedCfdi)
    (h : parse_cfdi_xml doc u = some data) :
    data.iva = round2 (data.total - data.subtotal) ∧
    (∀ q : ℚ, doc.subTotal = some (.num q) → data.subtotal = q) ∧
    (∀ q : ℚ, doc.total = some (.num q) → data.total = q) := by
  simp only [parse_cfdi_xml, Option.bind_eq_bind, Option.bind_eq_some, Option.pure_def,
    Option.some.injEq] at h
  obtain ⟨emisor, hem, receptor, hre, conceptos, hco, concepto, hfc, subtotal, hst,
    total, hto, hdata⟩ := h
  subst hdata
  refine ⟨rfl, ?_, ?_⟩
  · intro q hq
    rw [hq] at hst
    simpa [floatOfAttr] using hst.symm
  · intro q hq
    rw [hq] at hto
    simpa [floatOfAttr] using hto.symm

/-- A concrete well-formed document: subtotal 100, total 116. -/
def docExample : CfdiDoc :=
  { emisor := some { rfc := some "XAXX010101000" }
    receptor := some { rfc := some "BBB111111BB1" }
    conceptos := some { firstConcepto := some { descripcion := some "Servicios de Consultoría" } }
    subTotal := some (.num 100)
    total := some (.num 116)
    fecha := some "2024-01-01" }

/-- The record `parse_cfdi_xml` produces for `docExample`. -/
def dataExample : ParsedCfdi :=
  { uuid := "u0"
    emisor_rfc := some "XAXX010101000"
    receptor_rfc := some "BBB111111BB1"
    concept := "Servicios de Consultoría"
    subtotal := 100
    iva := round2 (116 - 100)
    total := 116
    fecha := some "2024-01-01" }

/-- Witness for `parse_cfdi_tax_amount` on `docExample`. -/
theorem parse_cfdi_tax_amount_witness :
    dataExample.iva = round2 (dataExample.total - dataExample.subtotal) ∧
    dataExample.subtotal = 100 ∧ dataExample.total = 116 := by
  have h := parse_cfdi_tax_amount docExample "u0" dataExample rfl
  exact ⟨h.1, h.2.1 100 rfl, h.2.2 116 rfl⟩

/-! ### C4: which malformed documents actually fail -/

/-- A document whose root lacks the `SubTotal` attribute and whose `Emisor`
lacks the `Rfc` attribute. -/
def docMissingAttrs : CfdiDoc :=
  { emisor := some { rfc := none }
    receptor := some { rfc := some "BBB111111BB1" }
    conceptos := some { firstConcepto := some { descripcion := some "Servicios" } }
    subTotal := none
    total := some (.num 116)
    fecha := none }

/-- The record the parser produces for `docMissingAttrs`. -/
def dataMissingAttrs : ParsedCfdi :=
  { uuid := "u0"
    emisor_rfc := none
    receptor_rfc := some "BBB111111BB1"
    concept := "Servicios"
    subtotal := 0
    iva := round2 (116 - 0)
    total := 116
    fecha := none }

/-- **C4 counterexample.** A document with a missing required `SubTotal`
attribute and a missing issuer `Rfc` attribute does NOT make the parser fail:
it succeeds, defaulting the subtotal to 0 and storing no issuer identifier. -/
theorem parse_missing_attr_counterexample :
    parse_cfdi_xml docMissingAttrs "u0" = some dataMissingAttrs ∧
    dataMissingAttrs.subtotal = 0 ∧
    dataMissingAttrs.emisor_rfc = none := ⟨rfl, rfl, rfl⟩

/-! ### Derived record fields (`calc_memoria`, `business_reason_art5`) -/

/-- The dictionary returned by `calc_memoria`. -/
structure Memoria where
  base : ℚ
  iva : ℚ
  total : ℚ
  fundamento : String
  documentos_requeridos : List String
deriving DecidableEq, Repr

/-- `calc_memoria`: copies the monetary fields and the taxonomy's document
list, with a fixed legal-basis string. -/
def calc_memoria (cfdi : Cfdi) (taxonomy : TaxonomyEntry) : Memoria :=
  { base := cfdi.subtotal
    iva := cfdi.iva
    total := cfdi.total
    fundamento := "LISR Art. 25, LIVA Art. 5, CFF Art. 5"
    documentos_requeridos := taxonomy.materialidad }

/-- Python `str` of an optional string (`str(None) = "None"`). -/
def optStr : Option String → String
  | some s => s
  | none => "None"

/-- `business_reason_art5`: pure template fill.  Number rendering of the
total is abstracted by `toString` on the exact rational. -/
def business_reason_art5 (cfdi : Cfdi) : String :=
  "La operación \x27" ++ cfdi.concept ++
  "\x27 se realizó para la obtención de ingresos, " ++
  "optimización de procesos y cumplimiento del objeto social. " ++
  "Existe sustancia económica al contar con proveedor identificado (" ++
  optStr cfdi.emisor_rfc ++ "), contraprestación (" ++ toString cfdi.total ++
  "), y documentación de soporte. No es una operación artificiosa."

/-! ### Collections and request handlers

The five JSON collections are fields of `AppState` (`USERS` is fixed at
startup and handled separately).  Each Flask handler becomes a state
transition; an uncaught Python exception aborts the request before any
append/save, modelled by returning `none` and leaving the state unused. -/

/-- One record of the `CFDIS` collection:
`{**data, taxonomy, efos, memoria, razon_negocio, riesgo, created_at}`. -/
structure CfdiRecord where
  cfdi : Cfdi
  taxonomy : TaxonomyEntry
  efos : EfosCheck
  memoria : Memoria
  razon_negocio : String
  riesgo : Risk
  created_at : String
deriving DecidableEq, Repr

/-- One record of the `ALERTS` collection. -/
structure Alert where
  id : String
  cfdi_uuid : String
  level : String
  reasons : List String
  ts : String
deriving DecidableEq, Repr

/-- One record of the `LOGS` collection. -/
structure LogEntry where
  id : String
  ts : String
  user : Option String
  action : String
  detail : String
deriving DecidableEq, Repr

/-- The mutable collections (`CFDIS`, `EVIDENCES`, `ALERTS`, `LOGS`). -/
structure AppState where
  cfdis : List CfdiRecord
  evidences : List Evidence
  alerts : List Alert
  logs : List LogEntry
deriving DecidableEq, Repr

/-- The startup state when no data files exist yet: every collection is
initialised to its `load_db` default `[]`. -/
def initState : AppState :=
  { cfdis := [], evidences := [], alerts := [], logs := [] }

/-- The invoice record assembled by `upload_cfdi` on a successful parse:
`data["concept_type"] = classify_concept(...)`, then
`{**data, taxonomy, efos, memoria, razon_negocio, riesgo, created_at}`, with
the linked evidence computed by filtering `EVIDENCES` on the fresh uuid. -/
def upload_cfdi_record (st : AppState) (data : ParsedCfdi) (taxonomy : TaxonomyEntry)
    (now : String) : CfdiRecord :=
  let cfdi : Cfdi := { toParsedCfdi := data, concept_type := classify_concept data.concept }
  let efos := check_rfc_efos cfdi.emisor_rfc now
  let evidences := st.evidences.filter (fun e => e.cfdi_uuid == data.uuid)
  { cfdi := cfdi
    taxonomy := taxonomy
    efos := efos
    memoria := calc_memoria cfdi taxonomy
    razon_negocio := business_reason_art5 cfdi
    riesgo := risk_engine cfdi efos evidences
    created_at := now }

/-- The `upload_cfdi` handler.  `freshUuid`, `alertId`, `logId` stand for the
`uuid.uuid4()` values drawn, `now` for the timestamps, `user` for the session
user and `filename` for the uploaded file's name.  A parse failure (or an
impossible `TAXONOMY` `KeyError`) propagates out before any collection is
touched, so no new state is produced.  The record is appended to `CFDIS`
unconditionally; an alert is appended iff `risk["level"] != "BAJO"`; a log
entry is always appended. -/
def upload_cfdi (st : AppState) (user filename : String) (doc : CfdiDoc)
    (freshUuid alertId logId now : String) : Option AppState :=
  match parse_cfdi_xml doc freshUuid with
  | none => none
  | some data =>
    match TAXONOMY (classify_concept data.concept) with
    | none => none
    | some taxonomy =>
      if (upload_cfdi_record st data taxonomy now).riesgo.level ≠ "BAJO" then
        some { st with
               cfdis := st.cfdis ++ [upload_cfdi_record st data taxonomy now]
               alerts := st.alerts ++
                 [{ id := alertId, cfdi_uuid := data.uuid
                    level := (upload_cfdi_record st data taxonomy now).riesgo.level
                    reasons := (upload_cfdi_record st data taxonomy now).riesgo.reasons
                    ts := now }]
               logs := st.logs ++
                 [{ id := logId, ts := now, user := some user
                    action := "UPLOAD_CFDI", detail := filename }] }
      else
        some { st with
               cfdis := st.cfdis ++ [upload_cfdi_record st data taxonomy now]
               logs := st.logs ++
                 [{ id := logId, ts := now, user := some user
                    action := "UPLOAD_CFDI", detail := filename }] }

/-- The `upload_evidence` handler: always appends one evidence record and one
log entry. -/
def upload_evidence (st : AppState) (user cfdi_uuid filename fileHash evId logId now : String) :
    AppState :=
  let st₁ : AppState := { st with evidences := st.evidences ++
      [{ id := evId, cfdi_uuid := cfdi_uuid, filename := filename
         hash := fileHash, uploaded_at := now }] }
  { st₁ with logs := st₁.logs ++
      [{ id := logId, ts := now, user := some user
         action := "UPLOAD_EVIDENCE", detail := filename }] }

/-! ### Ledger exports (`export_isr`, `export_iva`)

The CSV file is modelled as the list of its rows, each a list of cells.
`DictWriter` is given `out[0].keys() if out else []`; the header row and the
data rows are written only under `if out:`, so an empty qualifying set yields
an empty file with no header row, and no exception is raised. -/

/-- One row of the ISR export. -/
structure IsrRow where
  uuid : String
  rfc_emisor : Option String
  concepto : String
  base : ℚ
  deducible : Bool
deriving DecidableEq, Repr

/-- One row of the IVA export. -/
structure IvaRow where
  uuid : String
  rfc_emisor : Option String
  concepto : String
  iva : ℚ
  acreditable : Bool
deriving DecidableEq, Repr

/-- The filtered, reshaped rows of the ISR export. -/
def export_isr_rows (cfdis : List CfdiRecord) : List IsrRow :=
  (cfdis.filter (fun c => c.taxonomy.isr_deductible)).map (fun c =>
    { uuid := c.cfdi.uuid, rfc_emisor := c.cfdi.emisor_rfc
      concepto := c.cfdi.concept, base := c.memoria.base, deducible := true })

/-- The filtered, reshaped rows of the IVA export. -/
def export_iva_rows (cfdis : List CfdiRecord) : List IvaRow :=
  (cfdis.filter (fun c => c.taxonomy.iva_creditable)).map (fun c =>
    { uuid := c.cfdi.uuid, rfc_emisor := c.cfdi.emisor_rfc
      concepto := c.cfdi.concept, iva := c.memoria.iva, acreditable := true })

/-- Cell rendering of an ISR row (cell text of numbers/booleans abstracted
by `toString`). -/
def isrRowCells (r : IsrRow) : List String :=
  [r.uuid, optStr r.rfc_emisor, r.concepto, toString r.base, toString r.deducible]

/-- Cell rendering of an IVA row. -/
def ivaRowCells (r : IvaRow) : List String :=
  [r.uuid, optStr r.rfc_emisor, r.concepto, toString r.iva, toString r.acreditable]

/-- The `export_isr` handler's CSV file content. -/
def export_isr (cfdis : List CfdiRecord) : List (List String) :=
  let out := export_isr_rows cfdis
  if out.isEmpty then []
  else ["uuid", "rfc_emisor", "concepto", "base", "deducible"] :: out.map isrRowCells

/-- The `export_iva` handler's CSV file content. -/
def export_iva (cfdis : List CfdiRecord) : List (List String) :=
  let out := export_iva_rows cfdis
  if out.isEmpty then []
  else ["uuid", "rfc_emisor", "concepto", "iva", "acreditable"] :: out.map ivaRowCells

/-! ### Access control (`login_required`) -/

/-- One `USERS` record. -/
structure UserRec where
  password : String
  role : String
deriving DecidableEq, Repr

/-- The three outcomes of the `login_required` wrapper. -/
inductive RouteResult where
  | redirectLogin
  | denied
  | handled
deriving DecidableEq, Repr

/-- Dictionary lookup on the `USERS` association list. -/
def lookupUser : List (String × UserRec) → String → Option UserRec
  | [], _ => none
  | (k, v) :: rest, u => if k = u then some v else lookupUser rest u

/-- The `USERS` collection as initialised by `load_db`'s default. -/
def USERS_default : List (String × UserRec) :=
  [("director@arkanum", { password := "1234", role := "DIRECTOR" }),
   ("contador@arkanum", { password := "1234", role := "CONTADOR" })]

/-- `login_required(role)` applied to a request with session user `sess`.
Python evaluates `if role and USERS[...]["role"] != role` left to right, so
with `role = None` the `USERS` lookup (a possible `KeyError`, modelled
`none`) is never reached. -/
def login_required (role : Option String) (sess : Option String)
    (users : List (String × UserRec)) : Option RouteResult :=
  match sess with
  | none => some .redirectLogin
  | some u =>
    match role with
    | none => some .handled
    | some r =>
      match lookupUser users u with
      | none => none
      | some rec => if rec.role ≠ r then some .denied else some .handled

/-- The guard on `/dashboard`: `@login_required()`. -/
def dashboard_guard (sess : Option String) (users : List (String × UserRec)) :
    Option RouteResult := login_required none sess users

/-- The guard on `/upload_cfdi`: `@login_required()`. -/
def upload_cfdi_guard (sess : Option String) (users : List (String × UserRec)) :
    Option RouteResult := login_required none sess users

/-- The guard on `/upload_evidence`: `@login_required()`. -/
def upload_evidence_guard (sess : Option String) (users : List (String × UserRec)) :
    Option RouteResult := login_required none sess users

/-- The guard on `/export/isr`: `@login_required()`. -/
def export_isr_guard (sess : Option String) (users : List (String × UserRec)) :
    Option RouteResult := login_required none sess users

/-- The guard on `/export/iva`: `@login_required()`. -/
def export_iva_guard (sess : Option String) (users : List (String × UserRec)) :
    Option RouteResult := login_required none sess users

/-- The guard on `/export/json`: `@login_required()`. -/
def export_json_guard (sess : Option String) (users : List (String × UserRec)) :
    Option RouteResult := login_required none sess users

/-! ### Lemmas about the parser and the upload handler -/

/-- The parser stores the freshly generated token as the record's `uuid`. -/
lemma parse_cfdi_uuid {doc : CfdiDoc} {u : String} {data : ParsedCfdi}
    (h : parse_cfdi_xml doc u = some data) : data.uuid = u := by
  simp only [parse_cfdi_xml, Option.bind_eq_bind, Option.bind_eq_some, Option.pure_def,
    Option.some.injEq] at h
  obtain ⟨_, _, _, _, _, _, _, _, _, _, _, _, hdata⟩ := h
  subst hdata
  rfl

/-- Case analysis on a successful `upload_cfdi` run. -/
lemma upload_cfdi_some_elim {st : AppState} {user filename : String} {doc : CfdiDoc}
    {u aid lid now : String} {st' : AppState}
    (h : upload_cfdi st user filename doc u aid lid now = some st') :
    ∃ data taxonomy,
      parse_cfdi_xml doc u = some data ∧
      TAXONOMY (classify_concept data.concept) = some taxonomy ∧
      ((upload_cfdi_record st data taxonomy now).riesgo.level ≠ "BAJO" ∧
        st' = { st with
                cfdis := st.cfdis ++ [upload_cfdi_record st data taxonomy now]
                alerts := st.alerts ++
                  [{ id := aid, cfdi_uuid := data.uuid
                     level := (upload_cfdi_record st data taxonomy now).riesgo.level
                     reasons := (upload_cfdi_record st data taxonomy now).riesgo.reasons
                     ts := now }]
                logs := st.logs ++
                  [{ id := lid, ts := now, user := some user
                     action := "UPLOAD_CFDI", detail := filename }] } ∨
       (upload_cfdi_record st data taxonomy now).riesgo.level = "BAJO" ∧
        st' = { st with
                cfdis := st.cfdis ++ [upload_cfdi_record st data taxonomy now]
                logs := st.logs ++
                  [{ id := lid, ts := now, user := some user
                     action := "UPLOAD_CFDI", detail := filename }] }) := by
  unfold upload_cfdi at h
  split at h
  · exact absurd h (by simp)
  rename_i data hparse
  split at h
  · exact absurd h (by simp)
  rename_i taxonomy htax
  split_ifs at h with hlev
  · exact ⟨data, taxonomy, hparse, htax,
      Or.inl ⟨hlev, (Option.some.injEq _ _ ▸ h).symm⟩⟩
  · exact ⟨data, taxonomy, hparse, htax,
      Or.inr ⟨not_not.mp hlev, (Option.some.injEq _ _ ▸ h).symm⟩⟩

/-- A successful upload changes the alert store either not at all or by one
record whose level is `"ALTO"` or `"MEDIO"`; the invoice store always grows
by exactly the assembled record, and the evidence store is untouched. -/
lemma upload_cfdi_alerts {st : AppState} {user filename : String} {doc : CfdiDoc}
    {u aid lid now : String} {st' : AppState}
    (h : upload_cfdi st user filename doc u aid lid now = some st') :
    st'.evidences = st.evidences ∧
    (st'.alerts = st.alerts ∨
     ∃ a, st'.alerts = st.alerts ++ [a] ∧ (a.level = "ALTO" ∨ a.level = "MEDIO")) := by
  obtain ⟨data, taxonomy, _, _, ⟨hlev, hst⟩ | ⟨hlev, hst⟩⟩ := upload_cfdi_some_elim h
  · subst hst
    refine ⟨rfl, Or.inr ⟨_, rfl, ?_⟩⟩
    have hmem := risk_engine_level_mem
      { toParsedCfdi := data, concept_type := classify_concept data.concept }
      (check_rfc_efos data.emisor_rfc now)
      (st.evidences.filter (fun e => e.cfdi_uuid == data.uuid))
    simp only [upload_cfdi_record] at hlev ⊢
    rcases hmem with h' | h' | h'
    · exact Or.inl h'
    · exact Or.inr h'
    · exact absurd h' hlev
  · subst hst
    exact ⟨rfl, Or.inl rfl⟩

/-! ### C4 (amended): which malformed documents fail -/

/-- **C4 (amended).** When a required sub-element (issuer, recipient,
concepts container, or first concept entry) is absent, or the subtotal/total
attribute is present but non-numeric, the parser fails; and when the parser
fails the whole upload aborts: no invoice record is created and no collection
is modified (the handler produces no successor state).  (Missing
subtotal/total attributes instead default to 0 and missing issuer/recipient
identifier attributes are stored as null — see the counterexample.) -/
theorem parse_fail_amended :
    (∀ doc : CfdiDoc, ∀ u : String,
      (doc.emisor = none ∨ doc.receptor = none ∨ doc.conceptos = none ∨
       (∃ cs, doc.conceptos = some cs ∧ cs.firstConcepto = none) ∨
       (∃ s, doc.subTotal = some (.nonNum s)) ∨
       (∃ s, doc.total = some (.nonNum s))) →
      parse_cfdi_xml doc u = none) ∧
    (∀ st user filename doc u aid lid now,
      parse_cfdi_xml doc u = none →
      upload_cfdi st user filename doc u aid lid now = none) := by
  constructor
  · intro doc u h
    rcases h with h | h | h | ⟨cs, h₁, h₂⟩ | ⟨s, h⟩ | ⟨s, h⟩ <;>
      simp only [parse_cfdi_xml, Option.bind_eq_bind] <;>
      cases hem : doc.emisor <;> cases hre : doc.receptor <;>
      cases hco : doc.conceptos <;>
      simp_all [floatOfAttr]
  · intro st user filename doc u aid lid now h
    simp [upload_cfdi, h]

/-- Witness for `parse_fail_amended`: a document with no `Emisor` element
fails to parse, and its upload produces no state. -/
theorem parse_fail_amended_witness :
    parse_cfdi_xml
      { emisor := none, receptor := some { rfc := some "BBB111111BB1" }
        conceptos := some { firstConcepto := some { descripcion := some "Servicios" } }
        subTotal := some (.num 100), total := some (.num 116), fecha := none }
      "u0" = none ∧
    upload_cfdi initState "director@arkanum" "f.xml"
      { emisor := none, receptor := some { rfc := some "BBB111111BB1" }
        conceptos := some { firstConcepto := some { descripcion := some "Servicios" } }
        subTotal := some (.num 100), total := some (.num 116), fecha := none }
      "u0" "a0" "l0" "t0" = none :=
  ⟨parse_fail_amended.1 _ "u0" (Or.inl rfl),
   parse_fail_amended.2 initState "director@arkanum" "f.xml" _ "u0" "a0" "l0" "t0"
     (parse_fail_amended.1 _ "u0" (Or.inl rfl))⟩

/-! ### C5: fresh uuid means no linked evidence -/

/-- **C5.** The invoice identifier is the freshly generated token created at
parse time; assuming it differs from the owning-invoice identifier of every
evidence record already stored (uuid4 collision-freeness), the evidence list
passed to the risk engine is empty, so the ingested record's score is at
least 25 and the no-evidence reason is among its reasons. -/
theorem upload_fresh_uuid_no_evidence
    (st : AppState) (user filename : String) (doc : CfdiDoc)
    (u aid lid now : String) (st' : AppState)
    (hfresh : ∀ e ∈ st.evidences, e.cfdi_uuid ≠ u)
    (h : upload_cfdi st user filename doc u aid lid now = some st') :
    st.evidences.filter (fun e => e.cfdi_uuid == u) = [] ∧
    ∃ r, st'.cfdis = st.cfdis ++ [r] ∧ r.cfdi.uuid = u ∧
      25 ≤ r.riesgo.score ∧ "Sin evidencias cargadas" ∈ r.riesgo.reasons := by
  have hfilter : st.evidences.filter (fun e => e.cfdi_uuid == u) = [] := by
    apply List.filter_eq_nil_iff.mpr
    intro e he
    simpa using hfresh e he
  refine ⟨hfilter, ?_⟩
  obtain ⟨data, taxonomy, hparse, htax, ⟨hlev, hst⟩ | ⟨hlev, hst⟩⟩ :=
    upload_cfdi_some_elim h <;>
  · subst hst
    refine ⟨upload_cfdi_record st data taxonomy now, rfl, parse_cfdi_uuid hparse, ?_⟩
    have huuid := parse_cfdi_uuid hparse
    have hrisk := risk_engine_no_evidence
      { toParsedCfdi := data, concept_type := classify_concept data.concept }
      (check_rfc_efos data.emisor_rfc now)
    simp only [upload_cfdi_record]
    rw [huuid, hfilter]
    exact hrisk

/-- Concrete upload of `docExample` from the startup state. -/
def uploadExampleState : AppState :=
  (upload_cfdi initState "director@arkanum" "f.xml" docExample "u0" "a0" "l0" "t0").getD
    initState

/-- Witness for `upload_fresh_uuid_no_evidence` on `docExample` from the
startup state. -/
theorem upload_fresh_uuid_no_evidence_witness :
    initState.evidences.filter (fun e => e.cfdi_uuid == "u0") = [] ∧
    ∃ r, uploadExampleState.cfdis = initState.cfdis ++ [r] ∧ r.cfdi.uuid = "u0" ∧
      25 ≤ r.riesgo.score ∧ "Sin evidencias cargadas" ∈ r.riesgo.reasons :=
  upload_fresh_uuid_no_evidence initState "director@arkanum" "f.xml" docExample
    "u0" "a0" "l0" "t0" uploadExampleState (by intro e he; simp [initState] at he) rfl

/-! ### The request-level transition system -/

/-- One state-mutating request (the read-only routes do not touch the four
collections; login/logout/exports additionally append a log entry, covered
by `opLog`). -/
inductive Op where
  | opUploadCfdi (user filename : String) (doc : CfdiDoc)
      (freshUuid alertId logId now : String)
  | opUploadEvidence (user cfdi_uuid filename fileHash evId logId now : String)
  | opLog (entry : LogEntry)

/-- The state transition of one request; `none` is an aborted request that
persists nothing. -/
def step (st : AppState) : Op → Option AppState
  | .opUploadCfdi user filename doc u aid lid now =>
      upload_cfdi st user filename doc u aid lid now
  | .opUploadEvidence user cu fn fh eid lid now =>
      some (upload_evidence st user cu fn fh eid lid now)
  | .opLog e => some { st with logs := st.logs ++ [e] }

/-- States reachable from the startup state by completed requests. -/
inductive Reachable : AppState → Prop where
  | init : Reachable initState
  | next {st : AppState} {op : Op} {st' : AppState} :
      Reachable st → step st op = some st' → Reachable st'

/-- **C6.** A successful upload appends the assembled record to the invoice
store unconditionally, appends an alert record (with the invoice identifier,
level, reasons and timestamp) iff the level is not the minimum tier
`"BAJO"`; consequently, in every reachable state every alert has level
`"ALTO"` or `"MEDIO"`. -/
theorem upload_append_and_alert_invariant :
    (∀ st user filename doc u aid lid now st',
        upload_cfdi st user filename doc u aid lid now = some st' →
        ∃ r, st'.cfdis = st.cfdis ++ [r] ∧
          (r.riesgo.level ≠ "BAJO" →
            st'.alerts = st.alerts ++
              [{ id := aid, cfdi_uuid := r.cfdi.uuid, level := r.riesgo.level
                 reasons := r.riesgo.reasons, ts := now }]) ∧
          (r.riesgo.level = "BAJO" → st'.alerts = st.alerts)) ∧
    (∀ st, Reachable st → ∀ a ∈ st.alerts, a.level = "ALTO" ∨ a.level = "MEDIO") := by
  constructor
  · intro st user filename doc u aid lid now st' h
    obtain ⟨data, taxonomy, hparse, htax, ⟨hlev, hst⟩ | ⟨hlev, hst⟩⟩ :=
      upload_cfdi_some_elim h
    · subst hst
      exact ⟨upload_cfdi_record st data taxonomy now, rfl,
        fun _ => rfl, fun hb => absurd hb hlev⟩
    · subst hst
      exact ⟨upload_cfdi_record st data taxonomy now, rfl,
        fun hb => absurd hlev hb, fun _ => rfl⟩
  · intro st hr
    induction hr with
    | init => intro a ha; simp [initState] at ha
    | next hprev hstep ih =>
      rename_i st₀ op st₁
      intro a ha
      cases op with
      | opUploadCfdi user filename doc u aid lid now =>
        obtain ⟨-, halerts | ⟨b, hb, hblev⟩⟩ := upload_cfdi_alerts hstep
        · exact ih a (halerts ▸ ha)
        · rw [hb, List.mem_append, List.mem_singleton] at ha
          rcases ha with ha | ha
          · exact ih a ha
          · exact ha ▸ hblev
      | opUploadEvidence user cu fn fh eid lid now =>
        simp only [step, Option.some.injEq] at hstep
        subst hstep
        exact ih a ha
      | opLog e =>
        simp only [step, Option.some.injEq] at hstep
        subst hstep
        exact ih a ha

/-- A document whose issuer is on the demo EFOS blacklist. -/
def docEfos : CfdiDoc :=
  { emisor := some { rfc := some "AAA010101AAA" }
    receptor := some { rfc := some "BBB111111BB1" }
    conceptos := some { firstConcepto := some { descripcion := some "Servicios de Consultoría" } }
    subTotal := some (.num 100)
    total := some (.num 116)
    fecha := some "2024-01-01" }

/-- The state after uploading `docEfos` from the startup state. -/
def stAfterEfosUpload : AppState :=
  (upload_cfdi initState "director@arkanum" "f.xml" docEfos "u1" "a1" "l1" "t1").getD
    initState

/-- Witness for `upload_append_and_alert_invariant` on the EFOS-listed
upload from the startup state. -/
theorem upload_append_and_alert_invariant_witness :
    (∃ r, stAfterEfosUpload.cfdis = initState.cfdis ++ [r] ∧
      (r.riesgo.level ≠ "BAJO" →
        stAfterEfosUpload.alerts = initState.alerts ++
          [{ id := "a1", cfdi_uuid := r.cfdi.uuid, level := r.riesgo.level
             reasons := r.riesgo.reasons, ts := "t1" }]) ∧
      (r.riesgo.level = "BAJO" → stAfterEfosUpload.alerts = initState.alerts)) ∧
    (∀ a ∈ stAfterEfosUpload.alerts, a.level = "ALTO" ∨ a.level = "MEDIO") :=
  ⟨upload_append_and_alert_invariant.1 initState "director@arkanum" "f.xml" docEfos
      "u1" "a1" "l1" "t1" stAfterEfosUpload rfl,
   upload_append_and_alert_invariant.2 stAfterEfosUpload
     (@Reachable.next initState
        (.opUploadCfdi "director@arkanum" "f.xml" docEfos "u1" "a1" "l1" "t1")
        stAfterEfosUpload Reachable.init rfl)⟩

/-! ### C7: exports with an empty qualifying set -/

/-- **C7.** When no stored invoice qualifies for the ISR (resp. IVA) filter,
the export is the empty file — no header row — and the (total) export
function raises no error. -/
theorem export_empty_qualifying :
    (∀ cfdis : List CfdiRecord, (∀ c ∈ cfdis, c.taxonomy.isr_deductible = false) →
       export_isr cfdis = []) ∧
    (∀ cfdis : List CfdiRecord, (∀ c ∈ cfdis, c.taxonomy.iva_creditable = false) →
       export_iva cfdis = []) := by
  constructor
  · intro cfdis h
    have hf : cfdis.filter (fun c => c.taxonomy.isr_deductible) = [] :=
      List.filter_eq_nil_iff.mpr (fun c hc => by simp [h c hc])
    simp [export_isr, export_isr_rows, hf]
  · intro cfdis h
    have hf : cfdis.filter (fun c => c.taxonomy.iva_creditable) = [] :=
      List.filter_eq_nil_iff.mpr (fun c hc => by simp [h c hc])
    simp [export_iva, export_iva_rows, hf]

/-- A stored invoice classified `"GENÉRICO"`, hence neither ISR-deductible
nor IVA-creditable. -/
def genericRecord : CfdiRecord :=
  { cfdi := { uuid := "u2", emisor_rfc := some "XAXX010101000"
              receptor_rfc := some "BBB111111BB1", concept := "Papelería"
              subtotal := 100, iva := 16, total := 116, fecha := none
              concept_type := "GENÉRICO" }
    taxonomy := { materialidad := ["Contrato", "Orden de compra", "Evidencia"]
                  isr_deductible := false, iva_creditable := false }
    efos := { rfc := some "XAXX010101000", is_efos := false
              source := "SAT/DOF (demo)", checked_at := "t" }
    memoria := { base := 100, iva := 16, total := 116
                 fundamento := "LISR Art. 25, LIVA Art. 5, CFF Art. 5"
                 documentos_requeridos := ["Contrato", "Orden de compra", "Evidencia"] }
    razon_negocio := "r"
    riesgo := { score := 40, level := "MEDIO"
                reasons := ["Sin evidencias cargadas", "Concepto genérico"] }
    created_at := "t" }

/-- Witness for `export_empty_qualifying` on a store holding only a generic
invoice. -/
theorem export_empty_qualifying_witness :
    export_isr [genericRecord] = [] ∧ export_iva [genericRecord] = [] :=
  ⟨export_empty_qualifying.1 [genericRecord]
      (fun c hc => by rw [List.mem_singleton] at hc; subst hc; rfl),
   export_empty_qualifying.2 [genericRecord]
      (fun c hc => by rw [List.mem_singleton] at hc; subst hc; rfl)⟩

/-! ### C10: no route is role-gated -/

/-- **C10.** Every guarded route applies the wrapper with no role argument,
an authenticated session is always let through regardless of the user's role
(`DIRECTOR` or `CONTADOR` alike), and the access-denied branch is unreachable:
the wrapper only ever redirects unauthenticated sessions or handles the
request. -/
theorem no_role_gated_routes :
    (∀ sess users,
      dashboard_guard sess users = login_required none sess users ∧
      upload_cfdi_guard sess users = login_required none sess users ∧
      upload_evidence_guard sess users = login_required none sess users ∧
      export_isr_guard sess users = login_required none sess users ∧
      export_iva_guard sess users = login_required none sess users ∧
      export_json_guard sess users = login_required none sess users) ∧
    (∀ u users, login_required none (some u) users = some .handled) ∧
    (∀ sess users, login_required none sess users = some .redirectLogin ∨
                   login_required none sess users = some .handled) := by
  refine ⟨fun sess users => ⟨rfl, rfl, rfl, rfl, rfl, rfl⟩, fun u users => rfl, ?_⟩
  intro sess users
  cases sess
  · exact Or.inl rfl
  · exact Or.inr rfl

end Arkanum
